import Mathlib

/-!
Shallow embedding of `buildbot_slack/reporter.py` (class `SlackStatusPush`)
and proofs about its notification construction and delivery pipeline.

Python dicts that carry the outbound payload are modelled as association
lists of string keys, Python truthiness of optional strings / ints is made
explicit, and the external collaborators (buildbot's `statusToString`, the
HTTP transport, the responsible-users lookup) are passed in as explicit
data so the functions stay pure and executable.
-/

namespace BuildbotSlack

/-- Python truthiness of an optional string: `None` and `""` are falsy. -/
def truthyStr : Option String → Bool
  | none => false
  | some s => s ≠ ""

/-- Python truthiness of an optional integer id: `None` and `0` are falsy. -/
def truthyNat : Option Nat → Bool
  | none => false
  | some n => n ≠ 0

/-- Python `str(x)` of an optional string as used by `str.format`:
`None` renders as `"None"`. -/
def pyStr : Option String → String
  | none => "None"
  | some s => s

/-- `STATUS_EMOJIS` table from reporter.py lines 31-39. -/
def STATUS_EMOJIS : List (String × String) :=
  [("success", ":sunglassses:"),
   ("warnings", ":meow_wow:"),
   ("failure", ":skull:"),
   ("skipped", ":slam:"),
   ("exception", ":skull:"),
   ("retry", ":facepalm:"),
   ("cancelled", ":slam:")]

/-- `STATUS_COLORS` table from reporter.py lines 40-48. -/
def STATUS_COLORS : List (String × String) :=
  [("success", "#36a64f"),
   ("warnings", "#fc8c03"),
   ("failure", "#fc0303"),
   ("skipped", "#fc8c03"),
   ("exception", "#fc0303"),
   ("retry", "#fc8c03"),
   ("cancelled", "#fc8c03")]

/-- Python `dict.get(key, default)` over an association-list dict. -/
def dictGet (table : List (String × String)) (k : String) (d : String) : String :=
  match table.lookup k with
  | some v => v
  | none => d

/-- The `Results` list of `buildbot.process.results` (external collaborator):
index-to-name table for result codes. -/
def resultsList : List String :=
  ["success", "warnings", "failure", "skipped", "exception", "retry", "cancelled"]

/-- `buildbot.process.results.statusToString` (external collaborator):
`None` means a build that is not finished; out-of-range codes render as
`"Invalid status"`; otherwise the name at the code's index. -/
def statusToString : Option Nat → String
  | none => "not finished"
  | some n => (resultsList.get? n).getD "Invalid status"

/-- One `sourcestamp` record as consumed by reporter.py: `revision` and
`branch` may be absent, `repository` and `project` are strings (possibly
empty). -/
structure SourceStamp where
  revision : Option String
  branch : Option String
  repository : String
  project : String
deriving DecidableEq, Repr

/-- The `buildset` sub-record consumed by reporter.py. -/
structure Buildset where
  sourcestamps : List SourceStamp
  parent_buildid : Option Nat
  parent_relationship : Option String
deriving DecidableEq, Repr

/-- A build record as consumed by reporter.py: id, builder name, completion
flag, result code (absent while running), public URL and buildset. -/
structure Build where
  buildid : Nat
  builder_name : String
  complete : Bool
  results : Option Nat
  url : String
  buildset : Buildset
deriving DecidableEq, Repr

/-- One entry of an attachment's `fields` list. -/
structure Field where
  title : String
  value : String
  short : Bool
deriving DecidableEq, Repr

/-- One Slack attachment as built by `getAttachments`. -/
structure Attachment where
  title : String
  title_link : String
  fallback : String
  text : String
  color : String
  mrkdwn_in : List String
  fields : List Field
deriving DecidableEq, Repr

/-- Static configuration captured by `reconfigService`:
`endpoint`, optional `channel`, optional `username`, the `attachments`
display toggle and the deprecated `host_url`-derived base URL. -/
structure Config where
  endpoint : String
  channel : Option String
  username : Option String
  attachments : Bool
  baseUrl : Option String
deriving DecidableEq, Repr

/-- `getMessage` (reporter.py lines 219-225): a two-entry dict keyed by the
completion flag, defaulting to the empty string. -/
def getMessage (build : Build) : String :=
  if build.complete then
    "Buildbot finished build " ++ build.builder_name ++ " with result: "
      ++ statusToString build.results
  else
    "Buildbot started build " ++ build.builder_name

/-- The sub-build test of reporter.py line 151:
`sub_build = bool(build["buildset"]["parent_buildid"])`. -/
def subBuild (build : Build) : Bool :=
  truthyNat build.buildset.parent_buildid

/-- The attachment title built by `getAttachments` (reporter.py lines
147-156): `"Build #<id>"`, then `" for <project> <sha>"` when the project
string is truthy, then `" <relationship>: #<parent_buildid>"` when the
build is a sub-build. -/
def attachmentTitle (build : Build) (ss : SourceStamp) : String :=
  let sha := pyStr ss.revision
  let t := "Build #" ++ toString build.buildid
  let t := if ss.project ≠ "" then t ++ " for " ++ ss.project ++ " " ++ sha else t
  if subBuild build then
    t ++ " " ++ pyStr build.buildset.parent_relationship ++ ": #"
      ++ toString (build.buildset.parent_buildid.getD 0)
  else t

/-- The `fields` list built by `getAttachments` (reporter.py lines
158-180): empty for sub-builds; otherwise Branch when the branch is
truthy, Repository when the repository string is truthy, and Commiters
as the comma-joined responsible users when that list is non-empty.
`responsibleUsers` is the result of the external
`utils.getResponsibleUsersForBuild` call. -/
def attachmentFields (build : Build) (ss : SourceStamp)
    (responsibleUsers : List String) : List Field :=
  if subBuild build then []
  else
    (if truthyStr ss.branch then
      [⟨"Branch", ss.branch.getD "", true⟩] else [])
    ++ (if ss.repository ≠ "" then
      [⟨"Repository", ss.repository, true⟩] else [])
    ++ (if responsibleUsers ≠ [] then
      [⟨"Commiters", String.intercalate ", " responsibleUsers, true⟩] else [])

/-- One attachment record as appended by `getAttachments` (reporter.py
lines 181-193). -/
def mkAttachment (build : Build) (ss : SourceStamp)
    (responsibleUsers : List String) : Attachment :=
  let title := attachmentTitle build ss
  { title := title
    title_link := build.url
    fallback := title ++ ": <" ++ build.url ++ ">"
    text := "Status: *" ++ statusToString build.results ++ "*"
    color := dictGet STATUS_COLORS (statusToString build.results) ""
    mrkdwn_in := ["text", "title", "fallback"]
    fields := attachmentFields build ss responsibleUsers }

/-- `getAttachments` (reporter.py lines 139-194): one attachment per
sourcestamp of the build's buildset. -/
def getAttachments (build : Build) (responsibleUsers : List String) :
    List Attachment :=
  build.buildset.sourcestamps.map (fun ss => mkAttachment build ss responsibleUsers)

/-- A value stored in the `postData` dict: a plain string or the
attachments list. -/
inductive PValue where
  | s : String → PValue
  | atts : List Attachment → PValue
deriving DecidableEq, Repr

/-- `getExtraParams` (reporter.py lines 235-236): the base class returns
the empty dict. -/
def getExtraParams (_build : Build) : List (String × PValue) := []

/-- `getBuildDetailsAndSendMessage` (reporter.py lines 196-217), the
payload-assembly part: builds the `postData` dict in source order.
Keys are inserted in the order the Python code assigns them. -/
def getBuildDetailsAndSendMessage (cfg : Config) (build : Build)
    (responsibleUsers : List String) : List (String × PValue) :=
  let text := getMessage build
  let pd : List (String × PValue) := []
  let pdText :=
    if cfg.attachments then
      let atts := getAttachments build responsibleUsers
      (if atts ≠ [] then pd ++ [("attachments", PValue.atts atts)] else pd, text)
    else
      (pd, text ++ " here: " ++ build.url)
  let pd := pdText.1 ++ [("text", PValue.s pdText.2)]
  let pd :=
    if truthyStr cfg.channel then pd ++ [("channel", PValue.s (cfg.channel.getD ""))]
    else pd
  let pd := pd ++
    [("icon_emoji", PValue.s (dictGet STATUS_EMOJIS (statusToString build.results)
        ":facepalm:"))]
  pd ++ getExtraParams build

/-- The result of one HTTP POST as seen by the dispatch loop: either a
response with status code and body, or a transport-level exception. -/
inductive HttpResult where
  | resp : Nat → String → HttpResult
  | exn : String → HttpResult
deriving DecidableEq, Repr

/-- The per-sourcestamp outcome recorded by the dispatch loop (reporter.py
lines 254-273): success on a 200 response; an HTTP failure logged with
status code and body on any other response; an exception failure logged
with the sourcestamp's repository, revision and the error detail. -/
inductive DeliveryOutcome where
  | success : DeliveryOutcome
  | httpFailure : Nat → String → DeliveryOutcome
  | exnFailure : String → String → String → DeliveryOutcome
deriving DecidableEq, Repr

/-- The body of one iteration of the dispatch loop (reporter.py lines
254-273): the try block posts once; a non-200 response reads the body and
records the failure; any exception is caught and recorded with the
sourcestamp's repository and revision. Nothing is re-raised. -/
def attemptOutcome (ss : SourceStamp) : HttpResult → DeliveryOutcome
  | .resp code body =>
      if code ≠ 200 then .httpFailure code body else .success
  | .exn e => .exnFailure ss.repository (pyStr ss.revision) e

/-- The dispatch loop of `sendMessage` (reporter.py lines 246-273): one
POST attempt per sourcestamp, in order; the transport's answer to the i-th
attempt is `oracle i`. -/
def dispatchFrom (oracle : Nat → HttpResult) :
    List SourceStamp → Nat → List DeliveryOutcome
  | [], _ => []
  | ss :: rest, i => attemptOutcome ss (oracle i) :: dispatchFrom oracle rest (i + 1)

/-- Dispatch over the full sourcestamp list, attempts numbered from 0. -/
def dispatch (sourcestamps : List SourceStamp) (oracle : Nat → HttpResult) :
    List DeliveryOutcome :=
  dispatchFrom oracle sourcestamps 0

/-- One report as passed to `sendMessage`: the code only reads its
`builds` list. -/
structure Report where
  builds : List Build
deriving Repr

/-- `sendMessage` (reporter.py lines 238-273): indexes `reports[0]` and
`report["builds"][0]` unconditionally — an out-of-range index is a Python
`IndexError`, modelled as `Except.error`; assembles the payload; returns
without posting when the payload dict is empty; otherwise runs the
dispatch loop over the build's sourcestamps. -/
def sendMessage (cfg : Config) (reports : List Report)
    (responsibleUsers : List String) (oracle : Nat → HttpResult) :
    Except String (List DeliveryOutcome) :=
  match reports with
  | [] => .error "IndexError: list index out of range"
  | report :: _ =>
    match report.builds with
    | [] => .error "IndexError: list index out of range"
    | build :: _ =>
      let postData := getBuildDetailsAndSendMessage cfg build responsibleUsers
      if postData.isEmpty then .ok []
      else .ok (dispatch build.buildset.sourcestamps oracle)

/-- `buildStarted` (reporter.py lines 228-229) forwards to `sendMessage`. -/
def buildStarted (cfg : Config) (reports : List Report)
    (responsibleUsers : List String) (oracle : Nat → HttpResult) :
    Except String (List DeliveryOutcome) :=
  sendMessage cfg reports responsibleUsers oracle

/-- `buildFinished` (reporter.py lines 232-233) forwards to `sendMessage`. -/
def buildFinished (cfg : Config) (reports : List Report)
    (responsibleUsers : List String) (oracle : Nat → HttpResult) :
    Except String (List DeliveryOutcome) :=
  sendMessage cfg reports responsibleUsers oracle

/-! ## Helper lemmas -/

theorem dispatchFrom_length (o : Nat → HttpResult) (ss : List SourceStamp) (k : Nat) :
    (dispatchFrom o ss k).length = ss.length := by
  induction ss generalizing k with
  | nil => rfl
  | cons hd tl ih => simp [dispatchFrom, ih]

theorem dispatchFrom_get? (o : Nat → HttpResult) (ss : List SourceStamp)
    (k i : Nat) :
    (dispatchFrom o ss k).get? i =
      (ss.get? i).map (fun s => attemptOutcome s (o (k + i))) := by
  induction ss generalizing k i with
  | nil => simp [dispatchFrom]
  | cons hd tl ih =>
    cases i with
    | zero => simp [dispatchFrom]
    | succ j =>
      simp only [dispatchFrom, List.get?_cons_succ]
      rw [ih (k + 1) j]
      have harith : k + 1 + j = k + (j + 1) := by omega
      rw [harith]

theorem lookup_eq_none_of_not_mem (t : List (String × String)) (k : String)
    (h : k ∉ t.map Prod.fst) : t.lookup k = none := by
  induction t with
  | nil => rfl
  | cons hd tl ih =>
    obtain ⟨a, b⟩ := hd
    simp only [List.map, List.mem_cons, not_or] at h
    have hne : (k == a) = false := beq_eq_false_iff_ne.mpr h.1
    simp [List.lookup, hne, ih h.2]

theorem dictGet_default (t : List (String × String)) (k d : String)
    (h : k ∉ t.map Prod.fst) : dictGet t k d = d := by
  unfold dictGet
  rw [lookup_eq_none_of_not_mem t k h]

/-! ## Claim theorems -/

/-- C1: dispatch over N sourcestamps makes exactly one HTTP POST attempt per
sourcestamp — N outcomes in total, the empty list (and no error) for N = 0 —
and the i-th outcome is determined solely by the i-th sourcestamp and the
transport's answer to the i-th attempt, so a failing attempt never prevents
the subsequent attempts. -/
theorem C1_dispatch_one_attempt_per_stamp
    (ss : List SourceStamp) (o : Nat → HttpResult) :
    (dispatch ss o).length = ss.length ∧
    (∀ i, (dispatch ss o).get? i =
      (ss.get? i).map (fun s => attemptOutcome s (o i))) ∧
    dispatch [] o = [] := by
  refine ⟨dispatchFrom_length o ss 0, fun i => ?_, rfl⟩
  simpa using dispatchFrom_get? o ss 0 i

/-- C2: for a single POST attempt, a non-2xx response yields a recorded
failure carrying the status code and body, a transport exception yields a
recorded failure carrying the exception detail (with the sourcestamp's
repository and revision context), and a 200 response yields a recorded
success; every attempt yields a recorded outcome, never an escalated
exception. -/
theorem C2_attempt_outcomes (ss : SourceStamp) :
    (∀ code body, code < 200 ∨ 300 ≤ code →
      attemptOutcome ss (.resp code body) = .httpFailure code body) ∧
    (∀ e, attemptOutcome ss (.exn e) =
      .exnFailure ss.repository (pyStr ss.revision) e) ∧
    (∀ body, attemptOutcome ss (.resp 200 body) = .success) := by
  refine ⟨fun code body h => ?_, fun e => rfl, fun body => rfl⟩
  have hne : code ≠ 200 := by omega
  simp [attemptOutcome, hne]

theorem C2_attempt_outcomes_witness :
    attemptOutcome ⟨some "abc", some "main", "org/repo", "proj"⟩
        (.resp 500 "oops") = .httpFailure 500 "oops" :=
  (C2_attempt_outcomes ⟨some "abc", some "main", "org/repo", "proj"⟩).1
    500 "oops" (by omega)

/-- C3: the primary message is a pure function of the completion flag,
builder name and result code; an incomplete event yields exactly the
started message (naming the builder, mentioning no result), a complete
event yields exactly the finished message with the builder name and the
human-readable result, and the SUCCESS/unit-tests scenario yields the
exact string of the spec. -/
theorem C3_primary_text (b : Build) :
    (∀ b2 : Build, b.complete = b2.complete →
      b.builder_name = b2.builder_name → b.results = b2.results →
      getMessage b = getMessage b2) ∧
    (b.complete = false →
      getMessage b = "Buildbot started build " ++ b.builder_name) ∧
    (b.complete = true →
      getMessage b = "Buildbot finished build " ++ b.builder_name
        ++ " with result: " ++ statusToString b.results) ∧
    (b.complete = true → b.builder_name = "unit-tests" → b.results = some 0 →
      getMessage b = "Buildbot finished build unit-tests with result: success") := by
  refine ⟨fun b2 hc hn hr => ?_, fun h => ?_, fun h => ?_, fun h hn hr => ?_⟩
  · simp [getMessage, hc, hn, hr]
  · simp [getMessage, h]
  · simp [getMessage, h]
  · simp [getMessage, h, hn, hr, statusToString, resultsList]

theorem C3_primary_text_witness :
    getMessage ⟨7, "unit-tests", true, some 0, "http://b/7",
        ⟨[], none, none⟩⟩ = "Buildbot finished build unit-tests with result: success" :=
  (C3_primary_text ⟨7, "unit-tests", true, some 0, "http://b/7",
      ⟨[], none, none⟩⟩).2.2.2 rfl rfl rfl

/-- C4: the status-to-color and status-to-icon lookups are total with no
failure mode: every result name in the tables resolves to a non-empty
color and icon (success to color #36a64f and icon :sunglassses:), and any
name outside the tables resolves to the defined fallbacks (the empty
color and the :facepalm: icon). -/
theorem C4_status_mapping_total :
    (∀ k, k ∈ resultsList →
      dictGet STATUS_COLORS k "" ≠ "" ∧
      dictGet STATUS_EMOJIS k ":facepalm:" ≠ "") ∧
    dictGet STATUS_COLORS "success" "" = "#36a64f" ∧
    dictGet STATUS_EMOJIS "success" ":facepalm:" = ":sunglassses:" ∧
    (∀ k, k ∉ STATUS_COLORS.map Prod.fst → dictGet STATUS_COLORS k "" = "") ∧
    (∀ k, k ∉ STATUS_EMOJIS.map Prod.fst →
      dictGet STATUS_EMOJIS k ":facepalm:" = ":facepalm:") := by
  refine ⟨fun k hk => ?_, by decide, by decide,
    fun k hk => dictGet_default _ _ _ hk, fun k hk => dictGet_default _ _ _ hk⟩
  simp only [resultsList, List.mem_cons, List.not_mem_nil, or_false] at hk
  rcases hk with h | h | h | h | h | h | h <;> subst h <;> decide

theorem C4_status_mapping_total_witness :
    dictGet STATUS_COLORS "success" "" ≠ "" ∧
    dictGet STATUS_COLORS "not finished" "" = "" :=
  ⟨(C4_status_mapping_total.1 "success" (by decide)).1,
   C4_status_mapping_total.2.2.2.1 "not finished" (by decide)⟩

/-- C5: for a sub-build (truthy parent build id), every attachment's field
list is empty — in particular it contains no Branch, Repository or
Commiters field — and the attachments do not depend on the
responsible-users lookup result at all. -/
theorem C5_subbuild_no_fields (build : Build) (ru ru2 : List String)
    (h : subBuild build = true) :
    (∀ a ∈ getAttachments build ru, a.fields = []) ∧
    getAttachments build ru = getAttachments build ru2 := by
  constructor
  · intro a ha
    simp only [getAttachments, List.mem_map] at ha
    obtain ⟨ss, _, rfl⟩ := ha
    simp [mkAttachment, attachmentFields, h]
  · simp only [getAttachments]
    apply List.map_congr_left
    intro ss _
    simp [mkAttachment, attachmentFields, h]

theorem C5_subbuild_no_fields_witness :
    subBuild ⟨9, "b", true, some 0, "u",
        ⟨[⟨some "abc", some "main", "org/repo", "proj"⟩], some 3, some "Triggered from"⟩⟩
      = true ∧
    ∀ a ∈ getAttachments
        ⟨9, "b", true, some 0, "u",
          ⟨[⟨some "abc", some "main", "org/repo", "proj"⟩], some 3, some "Triggered from"⟩⟩
        ["alice"], a.fields = [] :=
  ⟨by decide,
   (C5_subbuild_no_fields
     ⟨9, "b", true, some 0, "u",
       ⟨[⟨some "abc", some "main", "org/repo", "proj"⟩], some 3, some "Triggered from"⟩⟩
     ["alice"] [] (by decide)).1⟩

/-- C6: for a non-sub-build, each sourcestamp's attachment includes a field
titled "Branch" carrying exactly the branch value when the branch is
truthy, a field titled "Repository" with the repository value when it is
non-empty, and a field titled "Commiters" with the comma-joined
responsible users when that list is non-empty; each field is omitted when
its source value is empty; and `getAttachments` gives each sourcestamp
exactly these fields. -/
theorem C6_nonsub_fields (build : Build) (ss : SourceStamp) (ru : List String)
    (h : subBuild build = false) :
    ((truthyStr ss.branch = true →
        Field.mk "Branch" (ss.branch.getD "") true ∈ (mkAttachment build ss ru).fields) ∧
     (truthyStr ss.branch = false →
        ∀ f ∈ (mkAttachment build ss ru).fields, f.title ≠ "Branch")) ∧
    ((ss.repository ≠ "" →
        Field.mk "Repository" ss.repository true ∈ (mkAttachment build ss ru).fields) ∧
     (ss.repository = "" →
        ∀ f ∈ (mkAttachment build ss ru).fields, f.title ≠ "Repository")) ∧
    ((ru ≠ [] →
        Field.mk "Commiters" (String.intercalate ", " ru) true
          ∈ (mkAttachment build ss ru).fields) ∧
     (ru = [] →
        ∀ f ∈ (mkAttachment build ss ru).fields, f.title ≠ "Commiters")) ∧
    (getAttachments build ru).map Attachment.fields =
      build.buildset.sourcestamps.map (fun s => attachmentFields build s ru) := by
  refine ⟨⟨fun hb => ?_, fun hb => ?_⟩, ⟨fun hr => ?_, fun hr => ?_⟩,
    ⟨fun hu => ?_, fun hu => ?_⟩, ?_⟩
  · by_cases hr : ss.repository = "" <;> by_cases hu : ru = [] <;>
      simp [mkAttachment, attachmentFields, h, hb, hr, hu]
  · intro f hf
    by_cases hr : ss.repository = "" <;> by_cases hu : ru = [] <;>
      simp [mkAttachment, attachmentFields, h, hb, hr, hu] at hf <;>
      rcases hf with rfl | rfl <;> simp
  · by_cases hb : truthyStr ss.branch <;> by_cases hu : ru = [] <;>
      simp [mkAttachment, attachmentFields, h, hb, hr, hu]
  · intro f hf
    by_cases hb : truthyStr ss.branch <;> by_cases hu : ru = [] <;>
      simp [mkAttachment, attachmentFields, h, hb, hr, hu] at hf <;>
      rcases hf with rfl | rfl <;> simp
  · by_cases hb : truthyStr ss.branch <;> by_cases hr : ss.repository = "" <;>
      simp [mkAttachment, attachmentFields, h, hb, hr, hu]
  · intro f hf
    by_cases hb : truthyStr ss.branch <;> by_cases hr : ss.repository = "" <;>
      simp [mkAttachment, attachmentFields, h, hb, hr, hu] at hf <;>
      rcases hf with rfl | rfl <;> simp
  · simp [getAttachments, mkAttachment]

theorem C6_nonsub_fields_witness :
    Field.mk "Branch" "main" true ∈
      (mkAttachment
        ⟨7, "unit-tests", true, some 0, "http://b/7",
          ⟨[⟨some "abc", some "main", "org/repo", "proj"⟩], none, none⟩⟩
        ⟨some "abc", some "main", "org/repo", "proj"⟩ []).fields :=
  ((C6_nonsub_fields
      ⟨7, "unit-tests", true, some 0, "http://b/7",
        ⟨[⟨some "abc", some "main", "org/repo", "proj"⟩], none, none⟩⟩
      ⟨some "abc", some "main", "org/repo", "proj"⟩ [] (by decide)).1).1 (by decide)

/-- C7: with the attachments display disabled, the payload has no
`attachments` key and its text is the primary message followed by
" here: " and the literal build URL; with attachments enabled and at
least one attachment rendered, the attachments are included under the
`attachments` key and the text is the bare primary message with no URL
suffix. -/
theorem C7_attachments_toggle (cfg : Config) (build : Build) (ru : List String) :
    (cfg.attachments = false →
      (getBuildDetailsAndSendMessage cfg build ru).lookup "attachments" = none ∧
      (getBuildDetailsAndSendMessage cfg build ru).lookup "text" =
        some (PValue.s (getMessage build ++ " here: " ++ build.url)) ∧
      ∃ p, (getBuildDetailsAndSendMessage cfg build ru).lookup "text" =
        some (PValue.s (p ++ (" here: " ++ build.url)))) ∧
    (cfg.attachments = true → getAttachments build ru ≠ [] →
      (getBuildDetailsAndSendMessage cfg build ru).lookup "attachments" =
        some (PValue.atts (getAttachments build ru)) ∧
      (getBuildDetailsAndSendMessage cfg build ru).lookup "text" =
        some (PValue.s (getMessage build))) := by
  constructor
  · intro ha
    by_cases hc : truthyStr cfg.channel <;>
      simp [getBuildDetailsAndSendMessage, getExtraParams, ha, hc,
        List.lookup, String.append_assoc]
    · exact ⟨getMessage build, by simp [String.append_assoc]⟩
    · exact ⟨getMessage build, by simp [String.append_assoc]⟩
  · intro ha hatts
    by_cases hc : truthyStr cfg.channel <;>
      simp [getBuildDetailsAndSendMessage, getExtraParams, ha, hatts, hc,
        List.lookup]

theorem C7_attachments_toggle_witness :
    (getBuildDetailsAndSendMessage ⟨"https://e", none, none, false, none⟩
      ⟨7, "unit-tests", true, some 0, "http://b/7",
        ⟨[⟨some "abc", some "main", "org/repo", "proj"⟩], none, none⟩⟩
      []).lookup "attachments" = none :=
  ((C7_attachments_toggle ⟨"https://e", none, none, false, none⟩
    ⟨7, "unit-tests", true, some 0, "http://b/7",
      ⟨[⟨some "abc", some "main", "org/repo", "proj"⟩], none, none⟩⟩
    []).1 rfl).1

/-- A concrete configuration with a non-empty channel and a non-empty
username, used to exhibit the payload actually assembled for it. -/
def cfgEx : Config :=
  ⟨"https://hooks.example.com/services/X", some "#builds", some "bob", true, none⟩

/-- A concrete finished build with one sourcestamp. -/
def buildEx : Build :=
  ⟨7, "unit-tests", true, some 0, "http://buildbot/7",
    ⟨[⟨some "abc123", some "main", "org/repo", "proj"⟩], none, none⟩⟩

/-- C8 counterexample: with a configured non-empty username ("bob"), the
assembled payload has no `username` key at all and the username value
appears nowhere in the payload, while the configured channel does appear;
so the claim that a configured non-empty username appears in the payload
is false. -/
theorem C8_counterexample :
    truthyStr cfgEx.username = true ∧
    (getBuildDetailsAndSendMessage cfgEx buildEx []).lookup "username" = none ∧
    (∀ kv ∈ getBuildDetailsAndSendMessage cfgEx buildEx [],
      kv.1 ≠ "username" ∧ kv.2 ≠ PValue.s "bob") ∧
    (getBuildDetailsAndSendMessage cfgEx buildEx []).lookup "channel" =
      some (PValue.s "#builds") := by
  refine ⟨by decide, by decide, ?_, by decide⟩
  decide

/-- C8 amended: the channel override is applied exactly when the configured
channel is truthy (non-empty), but the configured username is never
included in the payload — the code stores it and does not use it — so only
the channel half of the claim holds. -/
theorem C8_amended_overrides (cfg : Config) (build : Build) (ru : List String) :
    (truthyStr cfg.channel = true →
      (getBuildDetailsAndSendMessage cfg build ru).lookup "channel" =
        some (PValue.s (cfg.channel.getD ""))) ∧
    (truthyStr cfg.channel = false →
      (getBuildDetailsAndSendMessage cfg build ru).lookup "channel" = none) ∧
    (getBuildDetailsAndSendMessage cfg build ru).lookup "username" = none := by
  refine ⟨fun hc => ?_, fun hc => ?_, ?_⟩
  · by_cases ha : cfg.attachments <;>
      by_cases hatts : getAttachments build ru = [] <;>
      simp [getBuildDetailsAndSendMessage, getExtraParams, ha, hatts, hc,
        List.lookup]
  · by_cases ha : cfg.attachments <;>
      by_cases hatts : getAttachments build ru = [] <;>
      simp [getBuildDetailsAndSendMessage, getExtraParams, ha, hatts, hc,
        List.lookup]
  · by_cases ha : cfg.attachments <;>
      by_cases hatts : getAttachments build ru = [] <;>
      by_cases hc : truthyStr cfg.channel <;>
      simp [getBuildDetailsAndSendMessage, getExtraParams, ha, hatts, hc,
        List.lookup]

theorem C8_amended_overrides_witness :
    (getBuildDetailsAndSendMessage cfgEx buildEx []).lookup "channel" =
      some (PValue.s "#builds") :=
  (C8_amended_overrides cfgEx buildEx []).1 (by decide)

/-- C9: the assembled payload always carries a `text` key and an
`icon_emoji` key (the icon falling back to ":facepalm:" for result names
outside the emoji table), so the payload dict is never empty, the
adapter's empty-payload no-op branch is unreachable, and for a build with
at least one sourcestamp `sendMessage` always runs the dispatch loop and
attempts at least one delivery. -/
theorem C9_payload_never_empty (cfg : Config) (build : Build) (ru : List String) :
    ((getBuildDetailsAndSendMessage cfg build ru).lookup "text").isSome = true ∧
    ((getBuildDetailsAndSendMessage cfg build ru).lookup "icon_emoji").isSome = true ∧
    (getBuildDetailsAndSendMessage cfg build ru).isEmpty = false ∧
    (statusToString build.results ∉ STATUS_EMOJIS.map Prod.fst →
      (getBuildDetailsAndSendMessage cfg build ru).lookup "icon_emoji" =
        some (PValue.s ":facepalm:")) ∧
    (∀ bs rs oracle, build.buildset.sourcestamps ≠ [] →
      sendMessage cfg (⟨build :: bs⟩ :: rs) ru oracle =
        .ok (dispatch build.buildset.sourcestamps oracle) ∧
      1 ≤ (dispatch build.buildset.sourcestamps oracle).length) := by
  refine ⟨?_, ?_, ?_, fun hk => ?_, fun bs rs oracle hss => ⟨?_, ?_⟩⟩
  · by_cases ha : cfg.attachments <;>
      by_cases hatts : getAttachments build ru = [] <;>
      by_cases hc : truthyStr cfg.channel <;>
      simp [getBuildDetailsAndSendMessage, getExtraParams, ha, hatts, hc,
        List.lookup]
  · by_cases ha : cfg.attachments <;>
      by_cases hatts : getAttachments build ru = [] <;>
      by_cases hc : truthyStr cfg.channel <;>
      simp [getBuildDetailsAndSendMessage, getExtraParams, ha, hatts, hc,
        List.lookup]
  · by_cases ha : cfg.attachments <;>
      by_cases hatts : getAttachments build ru = [] <;>
      by_cases hc : truthyStr cfg.channel <;>
      simp [getBuildDetailsAndSendMessage, getExtraParams, ha, hatts, hc]
  · have hfall : dictGet STATUS_EMOJIS (statusToString build.results) ":facepalm:"
        = ":facepalm:" := dictGet_default _ _ _ hk
    by_cases ha : cfg.attachments <;>
      by_cases hatts : getAttachments build ru = [] <;>
      by_cases hc : truthyStr cfg.channel <;>
      simp [getBuildDetailsAndSendMessage, getExtraParams, ha, hatts, hc,
        List.lookup, hfall]
  · have hne : (getBuildDetailsAndSendMessage cfg build ru).isEmpty = false := by
      by_cases ha : cfg.attachments <;>
        by_cases hatts : getAttachments build ru = [] <;>
        by_cases hc : truthyStr cfg.channel <;>
        simp [getBuildDetailsAndSendMessage, getExtraParams, ha, hatts, hc]
    simp [sendMessage, hne]
  · have hl : (dispatch build.buildset.sourcestamps oracle).length =
        build.buildset.sourcestamps.length := dispatchFrom_length oracle _ 0
    rw [hl]
    exact List.length_pos.mpr hss

theorem C9_payload_never_empty_witness :
    sendMessage cfgEx [⟨[buildEx]⟩] [] (fun _ => .resp 200 "ok") =
      .ok (dispatch buildEx.buildset.sourcestamps (fun _ => .resp 200 "ok")) :=
  ((C9_payload_never_empty cfgEx buildEx []).2.2.2.2 [] []
    (fun _ => .resp 200 "ok") (by decide)).1

/-- C10: `sendMessage` — reached from both `buildStarted` and
`buildFinished` — unconditionally indexes the first report and its first
build: an empty reports list, or a first report with an empty builds list,
produces an index error rather than a no-op, and all reports and builds
after the first are ignored. -/
theorem C10_first_report_first_build (cfg : Config) (ru : List String)
    (oracle : Nat → HttpResult) :
    sendMessage cfg [] ru oracle =
      .error "IndexError: list index out of range" ∧
    (∀ rest, sendMessage cfg (⟨[]⟩ :: rest) ru oracle =
      .error "IndexError: list index out of range") ∧
    (∀ b bs rest, sendMessage cfg (⟨b :: bs⟩ :: rest) ru oracle =
      sendMessage cfg [⟨[b]⟩] ru oracle) ∧
    (∀ reports, buildStarted cfg reports ru oracle =
      sendMessage cfg reports ru oracle) ∧
    (∀ reports, buildFinished cfg reports ru oracle =
      sendMessage cfg reports ru oracle) :=
  ⟨rfl, fun _ => rfl, fun _ _ _ => rfl, fun _ => rfl, fun _ => rfl⟩

end BuildbotSlack
